import Mathlib

/-!
Verification of the UTM/UPS dispatch, classification and validation core of
`pygeodesy/utmups.py` (PyGeodesy).  The definitions below are a shallow
embedding of that module: pure Python functions become Lean functions,
`raise`/`except` control flow becomes `Except`, Python floats become exact
rationals (`ℚ`), and a value whose `float(...)` conversion raises becomes
`Option.none`.  Collaborator code that lives in other modules of the package
(`pygeodesy.utm`, `pygeodesy.ups`, `pygeodesy.utmupsBase`, `pygeodesy.interns`)
is modelled from the specification, as marked in the doc comments.
-/

namespace Utmups

/-- Modelled from the spec: `pygeodesy.utmupsBase._MGRS_TILE` is not under
src/; the spec defines the tile unit as 100,000 meters. -/
def _MGRS_TILE : ℚ := 100000

/- UPS ranges, from `utmups.py` lines 33-36. -/

def _UPS_N_MAX : ℚ := 27 * _MGRS_TILE

def _UPS_N_MIN : ℚ := 13 * _MGRS_TILE

def _UPS_S_MAX : ℚ := 32 * _MGRS_TILE

def _UPS_S_MIN : ℚ :=  8 * _MGRS_TILE

/- UTM ranges, from `utmups.py` lines 38-43. -/

def _UTM_C_MAX : ℚ :=   9 * _MGRS_TILE

def _UTM_C_MIN : ℚ :=   1 * _MGRS_TILE

def _UTM_N_MAX : ℚ :=  95 * _MGRS_TILE

def _UTM_N_MIN : ℚ :=   0 * _MGRS_TILE

def _UTM_S_MAX : ℚ := 100 * _MGRS_TILE

def _UTM_S_MIN : ℚ :=  10 * _MGRS_TILE

/-- South minus North UTM northing, `utmups.py` line 45. -/
def _UTM_N_SHIFT : ℚ := _UTM_S_MAX - _UTM_N_MIN

/-- The shape of the `_UpsMinMax`/`_UtmMinMax` lookup tables: each field is a
pair indexed by hemisphere/pole position (first component for 'N', second for
'S'), exactly like the Python 2-tuples indexed by `_NS_.find(h)`. -/
structure MinMax where
  eMax : ℚ × ℚ
  eMin : ℚ × ℚ
  nMax : ℚ × ℚ
  nMin : ℚ × ℚ

/-- UPS ranges for North, South pole, `utmups.py` lines 48-53. -/
def _UpsMinMax : MinMax :=
  ⟨(_UPS_N_MAX, _UPS_S_MAX), (_UPS_N_MIN, _UPS_S_MIN),
   (_UPS_N_MAX, _UPS_S_MAX), (_UPS_N_MIN, _UPS_S_MIN)⟩

/-- UTM ranges for Northern, Southern hemisphere, `utmups.py` lines 56-61. -/
def _UtmMinMax : MinMax :=
  ⟨(_UTM_C_MAX, _UTM_C_MAX), (_UTM_C_MIN, _UTM_C_MIN),
   (_UTM_N_MAX, _UTM_N_MAX + _UTM_N_SHIFT),
   (_UTM_S_MIN - _UTM_N_SHIFT, _UTM_S_MIN)⟩

/-- Modelled from the spec: `pygeodesy.utmupsBase._UPS_ZONE`, the reserved
sentinel zone distinguishing UPS coordinates (numeric 0). -/
def _UPS_ZONE : Int := 0

/-- Modelled from the spec: `pygeodesy.utmupsBase._UTMUPS_ZONE_MIN`, the lower
end of the global valid zone range (the UPS sentinel 0). -/
def _UTMUPS_ZONE_MIN : Int := 0

/-- Modelled from the spec: `pygeodesy.utmupsBase._UTMUPS_ZONE_MAX`, the upper
end of the global valid zone range (the 60 numbered UTM zones). -/
def _UTMUPS_ZONE_MAX : Int := 60

/-- Modelled from the spec: `pygeodesy.utm._Bands`, the UTM latitude band
letters, the fixed alphabet excluding 'A', 'B', 'Y', 'Z' (and the lookalikes
'I' and 'O'), i.e. 'C'|'D'..'W'|'X' as in the `UtmUps` docstring. -/
def _UTM_Bands : List Char :=
  ['C', 'D', 'E', 'F', 'G', 'H', 'J', 'K', 'L', 'M',
   'N', 'P', 'Q', 'R', 'S', 'T', 'U', 'V', 'W', 'X']

/-- Modelled from the spec: `pygeodesy.ups._Bands`, the UPS polar band
letters, exactly 'A', 'B', 'Y', 'Z'. -/
def _UPS_Bands : List Char := ['A', 'B', 'Y', 'Z']

/- Interned strings, modelled from the spec: `pygeodesy.interns` is not under
src/; these are the tags used in composed error messages. -/

def _UTM_ : String := "UTM"

def _UPS_ : String := "UPS"

def _MGRS_ : String := "MGRS"

def _easting_ : String := "easting"

def _northing_ : String := "northing"

/-- A zone argument: Python accepts an `int` or a `str`. -/
inductive ZoneArg
| int (z : Int)
| str (s : String)
deriving DecidableEq

/-- Decimal value of a non-empty, all-digit character list (else `none`). -/
def decDigits (cs : List Char) : Option Int :=
  if cs ≠ [] ∧ cs.all Char.isDigit then
    some (cs.foldl (fun a c => a * 10 + (Int.ofNat c.toNat - 48)) 0)
  else none

/-- Modelled from the spec: `pygeodesy.utmupsBase._to3zBhp` is not under src/.
Normalizes the zone, band and hemisphere/pole representations: the zone is
accepted as an integer or as a digit string possibly including an embedded
trailing band letter (which then supplies the band); band and hemisphere/pole
letters are normalized to upper case.  Returns `none` on a malformed zone
string (the Python helper raises there). -/
def _to3zBhp (zone : ZoneArg) (band : Option Char) (hemipole : Char) :
    Option (Int × Option Char × Char) :=
  match zone with
  | .int z => some (z, band.map Char.toUpper, hemipole.toUpper)
  | .str s =>
    match decDigits s.toList with
    | some z => some (z, band.map Char.toUpper, hemipole.toUpper)
    | none =>
      match s.toList.getLast?, decDigits s.toList.dropLast with
      | some c, some z =>
        if c.isAlpha then some (z, some c.toUpper, hemipole.toUpper) else none
      | _, _ => none

/-- The errors raised by `utmupsValidate` (all raised as the configured
`Error`, by default `UTMUPSError`): a type-mismatch naming the acceptable
input shapes, a zone/band/hemisphere inconsistency naming the offending
coordinate, or an easting/northing range error naming the offending field,
its value and the violated bounds. -/
inductive VErr
| isnot (names : List String)
| coord (U : String) (zone : Int) (band : Option Char) (hemisphere : Char)
| range (ename : String) (en : Option ℚ) (lo hi : ℚ)
deriving DecidableEq

/-- The coordinate shapes accepted by `utmupsValidate`: a concrete `Utm` or
`Ups` instance (which carries its own `falsed` attribute), a `UtmUps5Tuple`
or `UtmUps8Tuple` (whose `falsed` state comes from the caller), or any other
input shape.  Easting/northing are `none` when not convertible to a number. -/
inductive Coord
| obj (zone : Int) (hemisphere : Char) (easting northing : Option ℚ)
      (band : Option Char) (falsed : Bool)
| tup (zone : Int) (hemipole : Char) (easting northing : Option ℚ)
      (band : Option Char)
| other
deriving DecidableEq

/-- `'NS'.find(h)` from `utmups.py` line 239: 0 for 'N', 1 for 'S', -1
otherwise. -/
def _NS_findIdx (h : Char) : Int :=
  if h = 'N' then 0 else if h = 'S' then 1 else -1

/-- Python pair indexing: index 0 is the first component, any other index
that occurs here (1, or Python's -1 which selects the last element) is the
second. -/
def sel (p : ℚ × ℚ) (i : Int) : ℚ := if i = 0 then p.1 else p.2

/-- `B not in u._Bands`, negated: membership of the (possibly missing) band
letter in the selected family's alphabet; a missing band is not a member. -/
def bandMem (B : Option Char) (Bands : List Char) : Bool :=
  match B with
  | some c => Bands.contains c
  | none => false

/-- The module names listed by the type-mismatch error of `utmupsValidate`
(line 222-223): `Utm`, `Ups`, `UtmUps5Tuple`, `UtmUps8Tuple`. -/
def acceptedShapes : List String := ["Utm", "Ups", "UtmUps5Tuple", "UtmUps8Tuple"]

/-- `_en` from `utmups.py` lines 199-207: accept `en` when it converts to a
number lying within `[lo, hi]`; otherwise (out of range, or the `float`
conversion raised) raise the range error naming the field, the offending
value and the violated bounds. -/
def _en (en : Option ℚ) (lo hi : ℚ) (ename : String) : Except VErr Unit :=
  match en with
  | some q => if lo ≤ q ∧ q ≤ hi then .ok () else .error (.range ename en lo hi)
  | none => .error (.range ename en lo hi)

/-- The min/max table selected by the normalized zone (`utmups.py` lines
227-232): the `_UpsMinMax` table for the UPS sentinel zone, `_UtmMinMax`
otherwise. -/
def tableOf (z : Int) : MinMax := if z = _UPS_ZONE then _UpsMinMax else _UtmMinMax

/-- The symmetric bounds widening: one tile when MGRS tolerance is requested,
zero otherwise (`utmups.py` lines 234-237). -/
def slopOf (MGRS : Bool) : ℚ := if MGRS then _MGRS_TILE else 0

/-- Lower easting bound `M.eMin[i] - s` for the selected family/hemisphere. -/
def eLo (z : Int) (h : Char) (MGRS : Bool) : ℚ :=
  sel (tableOf z).eMin (_NS_findIdx h) - slopOf MGRS

/-- Upper easting bound `M.eMax[i] + s` for the selected family/hemisphere. -/
def eHi (z : Int) (h : Char) (MGRS : Bool) : ℚ :=
  sel (tableOf z).eMax (_NS_findIdx h) + slopOf MGRS

/-- Lower northing bound `M.nMin[i] - s` for the selected family/hemisphere. -/
def nLo (z : Int) (h : Char) (MGRS : Bool) : ℚ :=
  sel (tableOf z).nMin (_NS_findIdx h) - slopOf MGRS

/-- Upper northing bound `M.nMax[i] + s` for the selected family/hemisphere. -/
def nHi (z : Int) (h : Char) (MGRS : Bool) : ℚ :=
  sel (tableOf z).nMax (_NS_findIdx h) + slopOf MGRS

/-- The body of `utmupsValidate` after field extraction (`utmups.py` lines
225-248), on the normalized `(z, B, h)` triple: select UPS or UTM family by
the zone sentinel, reject inconsistent zone/band/hemisphere, then check the
easting and northing bounds when the effective falsed flag `enMM` is set. -/
def validateCore (z : Int) (B : Option Char) (h : Char) (e n : Option ℚ)
    (enMM MGRS : Bool) : Except VErr Unit :=
  let U := if MGRS then _MGRS_ else if z = _UPS_ZONE then _UPS_ else _UTM_
  if _NS_findIdx h < 0 ∨ z < _UTMUPS_ZONE_MIN ∨ z > _UTMUPS_ZONE_MAX ∨
     bandMem B (if z = _UPS_ZONE then _UPS_Bands else _UTM_Bands) = false then
    .error (.coord U z B h)
  else if enMM then
    match _en e (eLo z h MGRS) (eHi z h MGRS) _easting_ with
    | .error x => .error x
    | .ok _ => _en n (nLo z h MGRS) (nHi z h MGRS) _northing_
  else .ok ()

/-- `utmupsValidate` from `utmups.py` lines 183-248: extract the fields
uniformly from an object or tuple (any other shape fails with the
type-mismatch error), take the effective falsed flag from the object itself
or, for tuples, from the `falsed` parameter, normalize `(zone, band,
hemipole)` and run the checks. -/
def utmupsValidate (coord : Coord) (falsed MGRS : Bool) : Except VErr Unit :=
  match coord with
  | .obj zone hemi e n band fo =>
    match _to3zBhp (.int zone) band hemi with
    | some (z, B, h) => validateCore z B h e n fo MGRS
    | none => .error (.coord (if MGRS then _MGRS_ else _UTM_) zone band hemi)
  | .tup zone hemi e n band =>
    match _to3zBhp (.int zone) band hemi with
    | some (z, B, h) => validateCore z B h e n falsed MGRS
    | none => .error (.coord (if MGRS then _MGRS_ else _UTM_) zone band hemi)
  | .other => .error (.isnot acceptedShapes)

/-- `utmupsValidateOK` from `utmups.py` lines 251-266: run `utmupsValidate`
(with its default MGRS setting) and return the supplied success value on
pass, or the caught error object itself on failure. -/
def utmupsValidateOK (α : Type) (coord : Coord) (falsed : Bool) (okv : α) :
    α ⊕ VErr :=
  match utmupsValidate coord falsed false with
  | .ok _ => .inl okv
  | .error x => .inr x

/-- The zone/band/hemisphere consistency condition enforced by
`utmupsValidate` on the normalized values: the hemisphere letter is 'N' or
'S', the zone lies in the global valid zone range, and the band letter is a
member of the band alphabet of the family selected by the zone. -/
def consistencyOK (z : Int) (B : Option Char) (h : Char) : Prop :=
  (h = 'N' ∨ h = 'S') ∧ _UTMUPS_ZONE_MIN ≤ z ∧ z ≤ _UTMUPS_ZONE_MAX ∧
  bandMem B (if z = _UPS_ZONE then _UPS_Bands else _UTM_Bands) = true

instance (z : Int) (B : Option Char) (h : Char) :
    Decidable (consistencyOK z B h) := by
  unfold consistencyOK; infer_instance

/-- The two error kinds that can escape the lat/lon classifiers, per the
error taxonomy documented in `utmups.py` lines 283-288: `RangeError` (the
range condition, raised both for a latitude outside the legal UTM bands and
for a lat/longitude outside the valid angular range when strict range
checking is enabled) and plain `ValueError` (invalid, e.g. non-numeric,
latitude or longitude). -/
inductive LLErr
| rangeErr
| valueErr
deriving DecidableEq

/-- The `UtmUpsLatLon5Tuple(zone, band, hemipole, lat, lon)` result of the
classifiers. -/
structure ZB5 where
  zone : Int
  band : Option Char
  hemipole : Char
  lat : ℚ
  lon : ℚ
deriving DecidableEq

/-- Clip a latitude to the valid angular range [-90, 90]. -/
def clipLat (φ : ℚ) : ℚ := max (-90) (min 90 φ)

/-- Clip a longitude to the valid angular range [-180, 180]. -/
def clipLon (l : ℚ) : ℚ := max (-180) (min 180 l)

/-- The UTM (longitudinal) zone of a clipped longitude: 6-degree slices
numbered from 1 at 180W, zone 60 including the 180E edge. -/
def utmZone (l : ℚ) : Int := min 60 (Int.floor ((l + 180) / 6) + 1)

/-- The UTM (latitudinal) band letter of a clipped latitude: 8-degree bands
'C'..'X' from 80S, the last band 'X' covering [72, 84). -/
def utmBand (φ : ℚ) : Char :=
  _UTM_Bands.getD (min 19 (Int.toNat (Int.floor ((φ + 80) / 8)))) 'X'

/-- Modelled from the spec: `pygeodesy.utm.utmZoneBand5` is not under src/.
Non-numeric latitude or longitude (`none`) fails with `ValueError`; a
lat/longitude outside the valid angular range fails with `RangeError` when
strict range checking (`rangerrors`) is enabled, else is clipped; a clipped
latitude outside the legal UTM bands [-80, 84) fails with the `RangeError`
range condition; otherwise the UTM zone, band, hemisphere and the clipped
(and, with `cmoff`, central-meridian offset) lat/longitude are returned. -/
def utmZoneBand5 (rangerrors cmoff : Bool) (lat lon : Option ℚ) :
    Except LLErr ZB5 :=
  match lat, lon with
  | some φ, some l =>
    if rangerrors = true ∧ (φ < -90 ∨ 90 < φ ∨ l < -180 ∨ 180 < l) then
      .error .rangeErr
    else
      let φc := clipLat φ
      let lc := clipLon l
      if φc < -80 ∨ 84 ≤ φc then .error .rangeErr
      else
        let z := utmZone lc
        .ok ⟨z, some (utmBand φc), if φc < 0 then 'S' else 'N', φc,
             if cmoff then lc - ((6 * z - 183 : Int) : ℚ) else lc⟩
  | _, _ => .error .valueErr

/-- Modelled from the spec: `pygeodesy.ups.upsZoneBand5` is not under src/.
Same domain errors as the UTM classifier; within the valid angular range it
always succeeds for any latitude, returning the UPS sentinel zone, the polar
band quadrant letter and the nearer pole. -/
def upsZoneBand5 (rangerrors : Bool) (lat lon : Option ℚ) :
    Except LLErr ZB5 :=
  match lat, lon with
  | some φ, some l =>
    if rangerrors = true ∧ (φ < -90 ∨ 90 < φ ∨ l < -180 ∨ 180 < l) then
      .error .rangeErr
    else
      let φc := clipLat φ
      let lc := clipLon l
      .ok ⟨_UPS_ZONE,
           some (if φc < 0 then (if lc < 0 then 'A' else 'B')
                 else (if lc < 0 then 'Y' else 'Z')),
           if φc < 0 then 'S' else 'N', φc, lc⟩
  | _, _ => .error .valueErr

/-- `utmupsZoneBand5` from `utmups.py` lines 269-295: attempt the UTM
classifier and, exactly when it raises `RangeError`, fall back to the UPS
classifier; any other outcome (success or `ValueError`) passes through. -/
def utmupsZoneBand5 (rangerrors cmoff : Bool) (lat lon : Option ℚ) :
    Except LLErr ZB5 :=
  match utmZoneBand5 rangerrors cmoff lat lon with
  | .ok r => .ok r
  | .error .rangeErr => upsZoneBand5 rangerrors lat lon
  | .error .valueErr => .error .valueErr

/-- Whether `utmupsZoneBand5` enters its UPS fallback, i.e. whether the
`except RangeError` handler at `utmups.py` line 294 fires. -/
def upsFallback (rangerrors cmoff : Bool) (lat lon : Option ℚ) : Bool :=
  match utmZoneBand5 rangerrors cmoff lat lon with
  | .error .rangeErr => true
  | _ => false

/-- The unified `UTMUPSError` raised by `parseUTMUPS5`, carrying the input
string and the text of the underlying parser's error. -/
structure UTMUPSErr where
  strUTMUPS : String
  txt : String
deriving DecidableEq

/-- `parseUTMUPS5` from `utmups.py` lines 71-101, with the two collaborating
string parsers `parseUTM5` (of `pygeodesy.utm`) and `parseUPS5` (of
`pygeodesy.ups`) abstracted as function arguments since they are not under
src/: attempt the UTM parser; on its failure attempt the UPS parser; a
failure reaching the outer handler is re-raised as `UTMUPSErr` carrying the
input string and the failing parser's message. -/
def parseUTMUPS5 (α : Type) (parseUTM5 parseUPS5 : String → Except String α)
    (strUTMUPS : String) : Except UTMUPSErr α :=
  match parseUTM5 strUTMUPS with
  | .ok u => .ok u
  | .error _ =>
    match parseUPS5 strUTMUPS with
    | .ok u => .ok u
    | .error x => .error ⟨strUTMUPS, x⟩

/-- The result of the `UtmUps` class-like factory: construction delegated to
the UPS engine (`Ups(...)`) or to the UTM engine (`Utm(...)`), recording the
arguments passed on. -/
inductive Built
| viaUps (zone : Int) (hemipole : Char) (easting northing : ℚ)
    (band : Option Char) (falsed : Bool)
| viaUtm (zone : Int) (hemipole : Char) (easting northing : ℚ)
    (band : Option Char) (falsed : Bool)
deriving DecidableEq

/-- `UtmUps` from `utmups.py` lines 153-180: normalize `(zone, band,
hemipole)` with `_to3zBhp`, then delegate to `Ups` exactly when the
normalized zone is the UPS sentinel (`z in (_UPS_ZONE, _UPS_ZONE_STR)`; the
normalized zone being numeric, the string alternative `"00"` is subsumed by
the numeric comparison after normalization), else to `Utm`.  A failed
normalization yields `none` (the Python helper raises there). -/
def UtmUps (zone : ZoneArg) (hemipole : Char) (easting northing : ℚ)
    (band : Option Char) (falsed : Bool) : Option Built :=
  match _to3zBhp zone band hemipole with
  | none => none
  | some (z, B, hp) =>
    if z = _UPS_ZONE then some (.viaUps z hp easting northing B falsed)
    else some (.viaUtm z hp easting northing B falsed)

/-- A consistent triple never trips the rejection guard of `validateCore`. -/
lemma not_guard_of_consistencyOK {z : Int} {B : Option Char} {h : Char}
    (hc : consistencyOK z B h) :
    ¬ (_NS_findIdx h < 0 ∨ z < _UTMUPS_ZONE_MIN ∨ z > _UTMUPS_ZONE_MAX ∨
       bandMem B (if z = _UPS_ZONE then _UPS_Bands else _UTM_Bands) = false) := by
  obtain ⟨hNS, h1, h2, h3⟩ := hc
  rintro (hi | hz | hz | hb)
  · rcases hNS with hN | hN <;> simp [_NS_findIdx, hN] at hi
  · omega
  · omega
  · simp [h3] at hb

/-- An inconsistent triple trips the rejection guard of `validateCore`. -/
lemma guard_of_not_consistencyOK {z : Int} {B : Option Char} {h : Char}
    (hc : ¬ consistencyOK z B h) :
    _NS_findIdx h < 0 ∨ z < _UTMUPS_ZONE_MIN ∨ z > _UTMUPS_ZONE_MAX ∨
      bandMem B (if z = _UPS_ZONE then _UPS_Bands else _UTM_Bands) = false := by
  unfold consistencyOK at hc
  push_neg at hc
  by_cases hNS : h = 'N' ∨ h = 'S'
  · by_cases h1 : z < _UTMUPS_ZONE_MIN
    · exact Or.inr (Or.inl h1)
    · by_cases h2 : z > _UTMUPS_ZONE_MAX
      · exact Or.inr (Or.inr (Or.inl h2))
      · have hb := hc hNS (not_lt.mp h1) (not_lt.mp h2)
        exact Or.inr (Or.inr (Or.inr (by simpa using hb)))
  · refine Or.inl ?_
    have hN : ¬ h = 'N' := fun hh => hNS (Or.inl hh)
    have hS : ¬ h = 'S' := fun hh => hNS (Or.inr hh)
    simp [_NS_findIdx, hN, hS]

/-- On a consistent triple, `validateCore` reduces to the bounds checks
(when the effective falsed flag is set) or to success. -/
lemma validateCore_consistent {z : Int} {B : Option Char} {h : Char}
    (e n : Option ℚ) (enMM MGRS : Bool) (hc : consistencyOK z B h) :
    validateCore z B h e n enMM MGRS =
      if enMM then
        match _en e (eLo z h MGRS) (eHi z h MGRS) _easting_ with
        | .error x => .error x
        | .ok _ => _en n (nLo z h MGRS) (nHi z h MGRS) _northing_
      else .ok () := by
  simp only [validateCore]
  rw [if_neg (not_guard_of_consistencyOK hc)]

/-- On an inconsistent triple, `validateCore` raises the coordinate
consistency error, whatever the easting, northing and flags. -/
lemma validateCore_inconsistent {z : Int} {B : Option Char} {h : Char}
    (e n : Option ℚ) (enMM MGRS : Bool) (hc : ¬ consistencyOK z B h) :
    validateCore z B h e n enMM MGRS =
      .error (.coord (if MGRS then _MGRS_ else if z = _UPS_ZONE then _UPS_ else _UTM_)
        z B h) := by
  simp only [validateCore]
  rw [if_pos (guard_of_not_consistencyOK hc)]

/-- `_en` either succeeds or raises a range error for its own field. -/
lemma _en_ok_or_range (en : Option ℚ) (lo hi : ℚ) (ename : String) :
    _en en lo hi ename = .ok () ∨
      _en en lo hi ename = .error (.range ename en lo hi) := by
  unfold _en
  match en with
  | some q =>
    by_cases hq : lo ≤ q ∧ q ≤ hi
    · exact Or.inl (by simp [hq])
    · exact Or.inr (by simp [hq])
  | none => exact Or.inr rfl

/- Evaluation of `Char.toUpper` on the letter literals appearing below. -/

@[simp] lemma toUpper_N : Char.toUpper 'N' = 'N' := rfl

@[simp] lemma toUpper_S : Char.toUpper 'S' = 'S' := rfl

@[simp] lemma toUpper_A : Char.toUpper 'A' = 'A' := rfl

@[simp] lemma toUpper_B : Char.toUpper 'B' = 'B' := rfl

@[simp] lemma toUpper_Y : Char.toUpper 'Y' = 'Y' := rfl

@[simp] lemma toUpper_Z : Char.toUpper 'Z' = 'Z' := rfl

@[simp] lemma toUpper_C : Char.toUpper 'C' = 'C' := rfl

@[simp] lemma toUpper_T : Char.toUpper 'T' = 'T' := rfl

@[simp] lemma toUpper_U : Char.toUpper 'U' = 'U' := rfl

@[simp] lemma toUpper_X : Char.toUpper 'X' = 'X' := rfl

@[simp] lemma toUpper_E : Char.toUpper 'E' = 'E' := rfl

@[simp] lemma toUpper_low_n : Char.toUpper 'n' = 'N' := rfl

/- Decisions of the hemisphere-letter comparisons appearing below. -/

@[simp] lemma S_ne_N : (('S' : Char) = 'N') = False := by decide

@[simp] lemma N_ne_S : (('N' : Char) = 'S') = False := by decide

@[simp] lemma E_ne_N : (('E' : Char) = 'N') = False := by decide

@[simp] lemma E_ne_S : (('E' : Char) = 'S') = False := by decide

/-- Literal values of the UPS table entries. -/
lemma upsTable_vals :
    _UPS_N_MAX = 2700000 ∧ _UPS_N_MIN = 1300000 ∧
    _UPS_S_MAX = 3200000 ∧ _UPS_S_MIN = 800000 := by
  norm_num [_UPS_N_MAX, _UPS_N_MIN, _UPS_S_MAX, _UPS_S_MIN, _MGRS_TILE]

/-- Literal values of the UTM table entries used by the Validator. -/
lemma utmTable_vals :
    _UTM_C_MIN = 100000 ∧ _UTM_C_MAX = 900000 ∧
    _UtmMinMax.nMin.1 = -9000000 ∧ _UtmMinMax.nMax.1 = 9500000 ∧
    _UtmMinMax.nMin.2 = 1000000 ∧ _UtmMinMax.nMax.2 = 19500000 := by
  norm_num [_UTM_C_MIN, _UTM_C_MAX, _UtmMinMax, _UTM_N_MAX, _UTM_N_MIN,
    _UTM_S_MAX, _UTM_S_MIN, _UTM_N_SHIFT, _MGRS_TILE]

/-- C1, counterexample: the claim asserts that the Validator's UTM table has
Northern-hemisphere northing bounds of [0, 95] tiles, a South shift of
100-(-5) tiles, and positive absolute northing values for every hemisphere.
In the code the Northern northing minimum is `_UTM_S_MIN - _UTM_N_SHIFT` =
-90 tiles (negative, not 0 tiles), and the shift is 100 tiles, not 105. -/
theorem C1_counterexample :
    _UtmMinMax.nMin.1 = -90 * _MGRS_TILE ∧
    _UtmMinMax.nMin.1 ≠ 0 * _MGRS_TILE ∧
    ¬ (0 : ℚ) ≤ _UtmMinMax.nMin.1 ∧
    _UTM_N_SHIFT = 100 * _MGRS_TILE ∧
    _UTM_N_SHIFT ≠ (100 - (-5)) * _MGRS_TILE := by
  norm_num [_UtmMinMax, _UTM_N_MAX, _UTM_N_MIN, _UTM_S_MAX, _UTM_S_MIN,
    _UTM_N_SHIFT, _MGRS_TILE]

/-- C1 (amended): the UTM range table used by the Validator has easting
bounds of [1, 9] tiles for both hemispheres; its Northern-hemisphere
northing bounds are [-90, 95] tiles; the Southern-hemisphere northing table
equals the Northern one shifted by the constant offset
`_UTM_N_SHIFT = _UTM_S_MAX - _UTM_N_MIN` of 100 - 0 = 100 tiles, giving
Southern bounds of [10, 195] tiles; so the Southern table's northing values
are positive, but the Northern table's northing minimum is negative. -/
theorem C1_utm_table :
    _UtmMinMax.eMin = (1 * _MGRS_TILE, 1 * _MGRS_TILE) ∧
    _UtmMinMax.eMax = (9 * _MGRS_TILE, 9 * _MGRS_TILE) ∧
    _UtmMinMax.nMin.1 = -90 * _MGRS_TILE ∧
    _UtmMinMax.nMax.1 = 95 * _MGRS_TILE ∧
    _UTM_N_SHIFT = _UTM_S_MAX - _UTM_N_MIN ∧
    _UTM_N_SHIFT = 100 * _MGRS_TILE ∧
    _UtmMinMax.nMin.2 = _UtmMinMax.nMin.1 + _UTM_N_SHIFT ∧
    _UtmMinMax.nMax.2 = _UtmMinMax.nMax.1 + _UTM_N_SHIFT ∧
    _UtmMinMax.nMin.2 = 10 * _MGRS_TILE ∧
    _UtmMinMax.nMax.2 = 195 * _MGRS_TILE ∧
    0 < _UtmMinMax.nMin.2 ∧ _UtmMinMax.nMin.1 < 0 := by
  norm_num [_UtmMinMax, _UTM_C_MAX, _UTM_C_MIN, _UTM_N_MAX, _UTM_N_MIN,
    _UTM_S_MAX, _UTM_S_MIN, _UTM_N_SHIFT, _MGRS_TILE]

/-- For every table row the lower bound is at most the upper bound
(unwidened). -/
lemma bounds_le {z : Int} {h : Char} (hh : h = 'N' ∨ h = 'S') :
    eLo z h false ≤ eHi z h false ∧ nLo z h false ≤ nHi z h false := by
  rcases hh with hh | hh <;> by_cases z0 : z = _UPS_ZONE <;>
    simp [eLo, eHi, nLo, nHi, tableOf, slopOf, sel, _NS_findIdx, hh, z0,
      _UpsMinMax, _UtmMinMax, _UPS_N_MAX, _UPS_N_MIN, _UPS_S_MAX, _UPS_S_MIN,
      _UTM_C_MAX, _UTM_C_MIN, _UTM_N_MAX, _UTM_N_MIN, _UTM_S_MAX, _UTM_S_MIN,
      _UTM_N_SHIFT, _MGRS_TILE] <;> norm_num

/-- C3: for every falsed coordinate of any consistent (family,
hemisphere/pole) combination -- UTM/UPS is selected by the zone, 'N'/'S' by
the hemisphere letter, so all four combinations are covered -- easting and
northing exactly at the table's minimum or maximum bound validate as legal
(bounds are inclusive), while a value one unit beyond either bound fails
with a range error naming the offending field; in particular the consistent
UPS-South coordinate with easting 1,000,000 and northing 3,200,001 (falsed)
fails with a northing range error against the 3,200,000 South UPS bound. -/
theorem C3_bounds_inclusive (z : Int) (B : Option Char) (h : Char)
    (hc : consistencyOK z (B.map Char.toUpper) h.toUpper) :
    (utmupsValidate (.tup z h (some (eLo z h.toUpper false))
        (some (nLo z h.toUpper false)) B) true false = .ok ()) ∧
    (utmupsValidate (.tup z h (some (eHi z h.toUpper false))
        (some (nHi z h.toUpper false)) B) true false = .ok ()) ∧
    (utmupsValidate (.tup z h (some (eLo z h.toUpper false - 1))
        (some (nLo z h.toUpper false)) B) true false =
      .error (.range _easting_ (some (eLo z h.toUpper false - 1))
        (eLo z h.toUpper false) (eHi z h.toUpper false))) ∧
    (utmupsValidate (.tup z h (some (eHi z h.toUpper false + 1))
        (some (nHi z h.toUpper false)) B) true false =
      .error (.range _easting_ (some (eHi z h.toUpper false + 1))
        (eLo z h.toUpper false) (eHi z h.toUpper false))) ∧
    (utmupsValidate (.tup z h (some (eLo z h.toUpper false))
        (some (nLo z h.toUpper false - 1)) B) true false =
      .error (.range _northing_ (some (nLo z h.toUpper false - 1))
        (nLo z h.toUpper false) (nHi z h.toUpper false))) ∧
    (utmupsValidate (.tup z h (some (eLo z h.toUpper false))
        (some (nHi z h.toUpper false + 1)) B) true false =
      .error (.range _northing_ (some (nHi z h.toUpper false + 1))
        (nLo z h.toUpper false) (nHi z h.toUpper false))) ∧
    (utmupsValidate (.tup 0 'S' (some 1000000) (some 3200001) (some 'A')) true false =
      .error (.range _northing_ (some 3200001) 800000 3200000)) := by
  have hh := hc.1
  have hb := bounds_le (z := z) hh
  have hval : ∀ e n : Option ℚ, utmupsValidate (.tup z h e n B) true false =
      match _en e (eLo z h.toUpper false) (eHi z h.toUpper false) _easting_ with
      | .error x => .error x
      | .ok _ => _en n (nLo z h.toUpper false) (nHi z h.toUpper false) _northing_ := by
    intro e n
    simp only [utmupsValidate, _to3zBhp]
    rw [validateCore_consistent e n true false hc, if_pos rfl]
  have hlt1 : ¬ (eLo z h.toUpper false ≤ eLo z h.toUpper false - 1) := by linarith
  have hlt2 : ¬ (eHi z h.toUpper false + 1 ≤ eHi z h.toUpper false) := by linarith
  have hlt3 : ¬ (nLo z h.toUpper false ≤ nLo z h.toUpper false - 1) := by linarith
  have hlt4 : ¬ (nHi z h.toUpper false + 1 ≤ nHi z h.toUpper false) := by linarith
  refine ⟨?_, ?_, ?_, ?_, ?_, ?_, ?_⟩
  · rw [hval]; simp [_en, hb.1, hb.2]
  · rw [hval]; simp [_en, hb.1, hb.2]
  · rw [hval]; simp [_en, hlt1]
  · rw [hval]; simp [_en, hlt2]
  · rw [hval]; simp [_en, hb.1, hb.2, hlt3]
  · rw [hval]; simp [_en, hb.1, hb.2, hlt4]
  · norm_num [utmupsValidate, _to3zBhp, validateCore, _en, bandMem, _NS_findIdx,
      eLo, eHi, nLo, nHi, tableOf, slopOf, sel, _UpsMinMax, _UPS_ZONE,
      _UTMUPS_ZONE_MIN, _UTMUPS_ZONE_MAX, _UPS_Bands,
      _UPS_N_MAX, _UPS_N_MIN, _UPS_S_MAX, _UPS_S_MIN, _MGRS_TILE]

/-- C3, witness: the UPS-South combination instantiated concretely. -/
theorem C3_witness :
    consistencyOK 0 ((some 'A').map Char.toUpper) (Char.toUpper 'S') ∧
    (utmupsValidate (.tup 0 'S' (some 1000000) (some 3200001) (some 'A')) true false =
      .error (.range _northing_ (some 3200001) 800000 3200000)) :=
  ⟨by decide, (C3_bounds_inclusive 0 (some 'A') 'S' (by decide)).2.2.2.2.2.2⟩

/-- A latitude within the valid angular range is unchanged by clipping. -/
lemma clipLat_id {φ : ℚ} (h1 : -90 ≤ φ) (h2 : φ ≤ 90) : clipLat φ = φ := by
  unfold clipLat
  rw [min_eq_right h2, max_eq_right h1]

/-- A longitude within the valid angular range is unchanged by clipping. -/
lemma clipLon_id {l : ℚ} (h1 : -180 ≤ l) (h2 : l ≤ 180) : clipLon l = l := by
  unfold clipLon
  rw [min_eq_right h2, max_eq_right h1]

/-- C2, counterexample: the claim says domain errors (out-of-range latitude
under strict range checking) never trigger the UPS fallback; but for
latitude 95 with strict range checking enabled the UTM classifier raises
`RangeError` -- the very kind the `except RangeError` fallback handler
catches -- so the fallback IS entered, and the error that ultimately
propagates is again the range kind (from the UPS classifier), not a
distinct one. -/
theorem C2_counterexample :
    upsFallback true false (some 95) (some 0) = true ∧
    utmupsZoneBand5 true false (some 95) (some 0) = .error .rangeErr ∧
    ¬ ((95 : ℚ) ≤ 90) := by
  have hU : utmZoneBand5 true false (some 95) (some 0) = .error .rangeErr := by
    simp only [utmZoneBand5]
    rw [if_pos (by norm_num)]
  have hP : upsZoneBand5 true (some 95) (some 0) = .error .rangeErr := by
    simp only [upsZoneBand5]
    rw [if_pos (by norm_num)]
  refine ⟨?_, ?_, by norm_num⟩
  · simp [upsFallback, hU]
  · simp [utmupsZoneBand5, hU, hP]

/-- C2 (amended): `utmupsZoneBand5` attempts UTM classification first and
falls back to UPS classification exactly when the UTM classifier raises the
`RangeError` range condition.  That condition covers both a valid latitude
outside UTM's band coverage and -- when strict range checking is enabled --
a latitude/longitude outside the valid angular range, so strict-range
domain errors DO trigger the UPS fallback (the UPS classifier then
re-raises the same range kind, which is what propagates).  Only non-numeric
input errors (`ValueError`) propagate as a distinct error kind without
triggering the fallback.  For a valid angle outside UTM coverage the
fallback result is the UPS classification, which succeeds. -/
theorem C2_classifier_dispatch (rr c : Bool) (lat lon : Option ℚ) :
    (upsFallback rr c lat lon = true ↔
      utmZoneBand5 rr c lat lon = .error .rangeErr) ∧
    ((lat = none ∨ lon = none) →
      utmupsZoneBand5 rr c lat lon = .error .valueErr ∧
      upsFallback rr c lat lon = false) ∧
    (∀ φ l : ℚ, lat = some φ → lon = some l →
      rr = true → (φ < -90 ∨ 90 < φ ∨ l < -180 ∨ 180 < l) →
      upsFallback rr c lat lon = true ∧
      utmupsZoneBand5 rr c lat lon = .error .rangeErr) ∧
    (∀ φ l : ℚ, lat = some φ → lon = some l →
      -90 ≤ φ → φ ≤ 90 → -180 ≤ l → l ≤ 180 → (φ < -80 ∨ 84 ≤ φ) →
      upsFallback rr c lat lon = true ∧
      utmupsZoneBand5 rr c lat lon = upsZoneBand5 rr lat lon ∧
      (∃ r, upsZoneBand5 rr lat lon = .ok r)) := by
  refine ⟨?_, ?_, ?_, ?_⟩
  · cases hU : utmZoneBand5 rr c lat lon with
    | ok r => simp [upsFallback, hU]
    | error err => cases err <;> simp [upsFallback, hU]
  · rintro (hnone | hnone) <;> subst hnone
    · constructor <;> (cases lon <;> simp [utmupsZoneBand5, upsFallback, utmZoneBand5])
    · constructor <;> (cases lat <;> simp [utmupsZoneBand5, upsFallback, utmZoneBand5])
  · intro φ l hφ hl hrr hout
    subst hφ; subst hl
    have hU : utmZoneBand5 rr c (some φ) (some l) = .error .rangeErr := by
      simp only [utmZoneBand5]
      rw [if_pos ⟨hrr, hout⟩]
    have hP : upsZoneBand5 rr (some φ) (some l) = .error .rangeErr := by
      simp only [upsZoneBand5]
      rw [if_pos ⟨hrr, hout⟩]
    exact ⟨by simp [upsFallback, hU], by simp [utmupsZoneBand5, hU, hP]⟩
  · intro φ l hφ hl h1 h2 h3 h4 hout
    subst hφ; subst hl
    have hc1 : ¬ (rr = true ∧ (φ < -90 ∨ 90 < φ ∨ l < -180 ∨ 180 < l)) := by
      rintro ⟨-, hd | hd | hd | hd⟩ <;> linarith
    have hout' : clipLat φ < -80 ∨ 84 ≤ clipLat φ := by
      rw [clipLat_id h1 h2]; exact hout
    have hU : utmZoneBand5 rr c (some φ) (some l) = .error .rangeErr := by
      simp only [utmZoneBand5]
      rw [if_neg hc1, if_pos hout']
    have hP : upsZoneBand5 rr (some φ) (some l) =
        .ok ⟨_UPS_ZONE,
             some (if clipLat φ < 0 then (if clipLon l < 0 then 'A' else 'B')
                   else (if clipLon l < 0 then 'Y' else 'Z')),
             if clipLat φ < 0 then 'S' else 'N', clipLat φ, clipLon l⟩ := by
      simp only [upsZoneBand5]
      rw [if_neg hc1]
    exact ⟨by simp [upsFallback, hU], by simp [utmupsZoneBand5, hU], _, hP⟩

/-- C2, witness: non-numeric input propagates as `ValueError` without
fallback; latitude 84.5 (a valid angle outside UTM coverage) triggers the
fallback and the UPS classification succeeds. -/
theorem C2_witness :
    (utmupsZoneBand5 false false none (some 0) = .error .valueErr ∧
     upsFallback false false none (some 0) = false) ∧
    (upsFallback false false (some (169 / 2)) (some 0) = true ∧
     utmupsZoneBand5 false false (some (169 / 2)) (some 0) =
       upsZoneBand5 false (some (169 / 2)) (some 0) ∧
     (∃ r, upsZoneBand5 false (some (169 / 2)) (some 0) = .ok r)) :=
  ⟨(C2_classifier_dispatch false false none (some 0)).2.1 (Or.inl rfl),
   ⟨((C2_classifier_dispatch false false (some (169 / 2)) (some 0)).2.2.2
      (169 / 2) 0 rfl rfl (by norm_num) (by norm_num) (by norm_num) (by norm_num)
      (Or.inr (by norm_num))).1,
    ((C2_classifier_dispatch false false (some (169 / 2)) (some 0)).2.2.2
      (169 / 2) 0 rfl rfl (by norm_num) (by norm_num) (by norm_num) (by norm_num)
      (Or.inr (by norm_num))).2⟩⟩

/-- C7: `parseUTMUPS5` attempts the UTM string parser first (the UPS parser
is not consulted on UTM success), attempts the UPS parser exactly when the
UTM parser fails, and a failure reaching the outer handler is re-raised as
the unified UTMUPS error kind carrying the failing parser's message and the
input string. -/
theorem C7_parse_dispatch (α : Type) (pU pP pP2 : String → Except String α)
    (s : String) :
    (∀ u, pU s = .ok u → parseUTMUPS5 α pU pP s = .ok u ∧
      parseUTMUPS5 α pU pP s = parseUTMUPS5 α pU pP2 s) ∧
    (∀ m u, pU s = .error m → pP s = .ok u → parseUTMUPS5 α pU pP s = .ok u) ∧
    (∀ m m2, pU s = .error m → pP s = .error m2 →
      parseUTMUPS5 α pU pP s = .error ⟨s, m2⟩) := by
  refine ⟨?_, ?_, ?_⟩
  · intro u hu
    constructor <;> simp [parseUTMUPS5, hu]
  · intro m u hm hu
    simp [parseUTMUPS5, hm, hu]
  · intro m m2 hm hm2
    simp [parseUTMUPS5, hm, hm2]

/-- C7, witness: both parsers failing yields the unified error carrying the
input string and the UPS parser's message. -/
theorem C7_witness :
    parseUTMUPS5 Unit (fun _ => .error "bad UTM") (fun _ => .error "bad UPS")
      "x N 1 2" = .error ⟨"x N 1 2", "bad UPS"⟩ :=
  (C7_parse_dispatch Unit (fun _ => .error "bad UTM") (fun _ => .error "bad UPS")
    (fun _ => .error "bad UPS") "x N 1 2").2.2 "bad UTM" "bad UPS" rfl rfl

/-- C8: the `UtmUps` factory normalizes the zone/band/hemisphere inputs
(zone as integer or as string, possibly with an embedded band letter) and
delegates construction to the UPS engine if and only if the normalized zone
equals the UPS sentinel -- which both the numeric 0 and the string "00"
normalize to -- and otherwise to the UTM engine. -/
theorem C8_factory_dispatch (zone : ZoneArg) (band : Option Char) (hp : Char)
    (e n : ℚ) (f : Bool) (z : Int) (B : Option Char) (h : Char)
    (hnorm : _to3zBhp zone band hp = some (z, B, h)) :
    (UtmUps zone hp e n band f = some (.viaUps z h e n B f) ↔ z = _UPS_ZONE) ∧
    (UtmUps zone hp e n band f = some (.viaUtm z h e n B f) ↔ z ≠ _UPS_ZONE) ∧
    UtmUps (.str "00") hp e n band f =
      some (.viaUps 0 hp.toUpper e n (band.map Char.toUpper) f) ∧
    UtmUps (.int 0) hp e n band f =
      some (.viaUps 0 hp.toUpper e n (band.map Char.toUpper) f) := by
  have hU : UtmUps zone hp e n band f =
      if z = _UPS_ZONE then some (.viaUps z h e n B f)
      else some (.viaUtm z h e n B f) := by
    unfold UtmUps
    rw [hnorm]
  have h00 : decDigits ['0', '0'] = some 0 := by decide
  refine ⟨⟨?_, ?_⟩, ⟨?_, ?_⟩, ?_, ?_⟩
  · intro hEq
    by_contra hz
    rw [hU, if_neg hz] at hEq
    simp at hEq
  · intro hz
    rw [hU, if_pos hz]
  · intro hEq hz
    rw [hU, if_pos hz] at hEq
    simp at hEq
  · intro hz
    rw [hU, if_neg hz]
  · simp [UtmUps, _to3zBhp, h00, _UPS_ZONE]
  · simp [UtmUps, _to3zBhp, _UPS_ZONE]

/-- C8, witness: the zone string "31X" with embedded band letter delegates
to the UTM engine with zone 31 and band 'X'. -/
theorem C8_witness :
    UtmUps (.str "31X") 'n' 500000 4649776 none true =
      some (.viaUtm 31 'N' 500000 4649776 (some 'X') true) :=
  (C8_factory_dispatch (.str "31X") none 'n' 500000 4649776 true 31 (some 'X') 'N'
    (by decide)).2.1.mpr (by decide)

/-- C4: `utmupsValidate` raises the zone/band/hemisphere inconsistency error
exactly when, after normalization, the hemisphere letter is not 'N' or 'S',
or the zone is outside the global valid zone range, or the band letter is
not in the band alphabet of the family selected by the zone; in particular
the unrecognized hemisphere letter 'E' always fails regardless of the other
fields, the UPS band letter 'A' with the UTM-range zone 31 fails, and the
UTM band letter 'T' with the UPS sentinel zone fails. -/
theorem C4_consistency_checks (z : Int) (B : Option Char) (h : Char)
    (e n : Option ℚ) (f M : Bool) :
    ((∃ U, utmupsValidate (.tup z h e n B) f M =
        .error (.coord U z (B.map Char.toUpper) h.toUpper)) ↔
      ¬ consistencyOK z (B.map Char.toUpper) h.toUpper) ∧
    (∀ z' : Int, ∀ e' n' : Option ℚ, ∀ B' : Option Char, ∀ f' M' : Bool,
      ∃ U, utmupsValidate (.tup z' 'E' e' n' B') f' M' =
        .error (.coord U z' (B'.map Char.toUpper) 'E')) ∧
    (∃ U, utmupsValidate (.tup 31 'N' e n (some 'A')) f M =
      .error (.coord U 31 (some 'A') 'N')) ∧
    (∃ U, utmupsValidate (.tup 0 'N' e n (some 'T')) f M =
      .error (.coord U 0 (some 'T') 'N')) := by
  have hred : ∀ z₀ B₀ h₀, ∀ e₀ n₀ : Option ℚ, ∀ f₀ M₀ : Bool,
      utmupsValidate (.tup z₀ h₀ e₀ n₀ B₀) f₀ M₀ =
        validateCore z₀ (B₀.map Char.toUpper) h₀.toUpper e₀ n₀ f₀ M₀ := by
    intro z₀ B₀ h₀ e₀ n₀ f₀ M₀
    simp only [utmupsValidate, _to3zBhp]
  refine ⟨⟨?_, ?_⟩, ?_, ?_, ?_⟩
  · rintro ⟨U, hU⟩
    by_contra hcon
    rw [hred, validateCore_consistent e n f M hcon] at hU
    by_cases hf : f = true
    · subst hf
      rw [if_pos rfl] at hU
      rcases _en_ok_or_range e (eLo z h.toUpper M) (eHi z h.toUpper M) _easting_ with
        he | he <;>
        rcases _en_ok_or_range n (nLo z h.toUpper M) (nHi z h.toUpper M) _northing_ with
          hn | hn <;>
        rw [he] at hU <;> simp [hn] at hU
    · have hf' : f = false := by revert hf; cases f <;> simp
      subst hf'
      rw [if_neg (by simp)] at hU
      simp at hU
  · intro hcon
    refine ⟨if M then _MGRS_ else if z = _UPS_ZONE then _UPS_ else _UTM_, ?_⟩
    rw [hred]
    exact validateCore_inconsistent e n f M hcon
  · intro z' e' n' B' f' M'
    have hcon : ¬ consistencyOK z' (B'.map Char.toUpper) (Char.toUpper 'E') := by
      intro hcon
      rcases hcon.1 with hx | hx <;> simp at hx
    refine ⟨if M' then _MGRS_ else if z' = _UPS_ZONE then _UPS_ else _UTM_, ?_⟩
    rw [hred]
    exact validateCore_inconsistent e' n' f' M' hcon
  · refine ⟨if M then _MGRS_ else if (31 : Int) = _UPS_ZONE then _UPS_ else _UTM_, ?_⟩
    rw [hred]
    exact validateCore_inconsistent e n f M (by decide)
  · refine ⟨if M then _MGRS_ else if (0 : Int) = _UPS_ZONE then _UPS_ else _UTM_, ?_⟩
    rw [hred]
    exact validateCore_inconsistent e n f M (by decide)

/-- C4, witness: the UTM band letter 'T' attached to the UPS sentinel zone
is rejected with the inconsistency error. -/
theorem C4_witness :
    ∃ U, utmupsValidate (.tup 0 'N' none none (some 'T')) false false =
      .error (.coord U 0 ((some 'T').map Char.toUpper) (Char.toUpper 'N')) :=
  (C4_consistency_checks 0 (some 'T') 'N' none none false false).1.mpr (by decide)

/-- C5: when the effective falsed flag is false -- a tuple validated with
`falsed=False`, or a `Utm`/`Ups` object whose own `falsed` attribute is
false -- `utmupsValidate` performs no easting/northing bounds check and
returns success whenever the zone/band/hemisphere consistency checks pass,
whatever the easting and northing (out-of-bounds or not even numeric). -/
theorem C5_unfalsed_skips_bounds (z : Int) (B : Option Char) (h : Char)
    (e n : Option ℚ) (f M : Bool)
    (hc : consistencyOK z (B.map Char.toUpper) h.toUpper) :
    utmupsValidate (.tup z h e n B) false M = .ok () ∧
    utmupsValidate (.obj z h e n B false) f M = .ok () := by
  constructor <;>
    · simp only [utmupsValidate, _to3zBhp]
      rw [validateCore_consistent e n false M hc, if_neg (by simp)]

/-- C5, witness: a wildly out-of-bounds easting and a non-numeric northing
still validate when unfalsed. -/
theorem C5_witness :
    consistencyOK 31 ((some 'U').map Char.toUpper) (Char.toUpper 'N') ∧
    utmupsValidate (.tup 31 'N' (some 99999999) none (some 'U')) false false = .ok () :=
  ⟨by decide,
   (C5_unfalsed_skips_bounds 31 (some 'U') 'N' (some 99999999) none false false
     (by decide)).1⟩

/-- C9: for a concrete `Utm`/`Ups` object the `falsed` parameter of
`utmupsValidate` is ignored -- the result only depends on the object's own
`falsed` attribute, and equals the result of validating the corresponding
tuple with that attribute as the parameter; the parameter only governs tuple
inputs, as the concrete instances show (same fields, object unfalsed versus
tuple falsed by the parameter). -/
theorem C9_object_ignores_falsed_param (z : Int) (B : Option Char) (h : Char)
    (e n : Option ℚ) (fo f1 f2 M : Bool) :
    utmupsValidate (.obj z h e n B fo) f1 M = utmupsValidate (.obj z h e n B fo) f2 M ∧
    utmupsValidate (.obj z h e n B fo) f1 M = utmupsValidate (.tup z h e n B) fo M ∧
    utmupsValidate (.obj 0 'S' (some 10000000) (some 1000000) (some 'A') false)
      true false = .ok () ∧
    utmupsValidate (.tup 0 'S' (some 10000000) (some 1000000) (some 'A'))
      true false =
      .error (.range _easting_ (some 10000000) 800000 3200000) := by
  refine ⟨rfl, rfl, ?_, ?_⟩ <;>
    norm_num [utmupsValidate, _to3zBhp, validateCore, _en, bandMem, _NS_findIdx,
      eLo, eHi, nLo, nHi, tableOf, slopOf, sel, _UpsMinMax, _UPS_ZONE,
      _UTMUPS_ZONE_MIN, _UTMUPS_ZONE_MAX, _UPS_Bands,
      _UPS_N_MAX, _UPS_N_MIN, _UPS_S_MAX, _UPS_S_MIN, _MGRS_TILE]

/-- C10: a falsed coordinate whose easting is not convertible to a number
gets the same configured range error as an out-of-range numeric easting,
naming the field, the offending value and the violated bounds (no
TypeError/ValueError propagates); likewise for the northing once the
easting passes. -/
theorem C10_unconvertible_easting_northing (z : Int) (B : Option Char)
    (h : Char) (n : Option ℚ)
    (hc : consistencyOK z (B.map Char.toUpper) h.toUpper) :
    (utmupsValidate (.tup z h none n B) true false =
      .error (.range _easting_ none (eLo z h.toUpper false) (eHi z h.toUpper false))) ∧
    (∀ q : ℚ, ¬ (eLo z h.toUpper false ≤ q ∧ q ≤ eHi z h.toUpper false) →
      utmupsValidate (.tup z h (some q) n B) true false =
        .error (.range _easting_ (some q) (eLo z h.toUpper false)
          (eHi z h.toUpper false))) ∧
    (utmupsValidate (.tup z h (some (eLo z h.toUpper false)) none B) true false =
      .error (.range _northing_ none (nLo z h.toUpper false)
        (nHi z h.toUpper false))) := by
  have hb := bounds_le (z := z) hc.1
  have hval : ∀ e n : Option ℚ, utmupsValidate (.tup z h e n B) true false =
      match _en e (eLo z h.toUpper false) (eHi z h.toUpper false) _easting_ with
      | .error x => .error x
      | .ok _ => _en n (nLo z h.toUpper false) (nHi z h.toUpper false) _northing_ := by
    intro e n
    simp only [utmupsValidate, _to3zBhp]
    rw [validateCore_consistent e n true false hc, if_pos rfl]
  refine ⟨?_, ?_, ?_⟩
  · rw [hval]; simp [_en]
  · intro q hq; rw [hval]; simp [_en, hq]
  · rw [hval]; simp [_en, hb.1]

/-- C10, witness: UPS-South, non-convertible easting. -/
theorem C10_witness :
    consistencyOK 0 ((some 'A').map Char.toUpper) (Char.toUpper 'S') ∧
    utmupsValidate (.tup 0 'S' none (some 0) (some 'A')) true false =
      .error (.range _easting_ none (eLo 0 (Char.toUpper 'S') false)
        (eHi 0 (Char.toUpper 'S') false)) :=
  ⟨by decide,
   (C10_unconvertible_easting_northing 0 (some 'A') 'S' (some 0) (by decide)).1⟩

/-- C6: `utmupsValidateOK` never raises -- it returns the supplied success
value when `utmupsValidate` passes and returns the caught validation error
object itself when it fails, including the type-mismatch error (naming the
acceptable input shapes) for an unknown input shape. -/
theorem C6_validateOK_never_raises (α : Type) (c : Coord) (f : Bool) (okv : α) :
    (utmupsValidate c f false = .ok () → utmupsValidateOK α c f okv = .inl okv) ∧
    (∀ x, utmupsValidate c f false = .error x → utmupsValidateOK α c f okv = .inr x) ∧
    utmupsValidateOK α Coord.other f okv = .inr (.isnot acceptedShapes) := by
  refine ⟨?_, ?_, rfl⟩
  · intro hok
    simp [utmupsValidateOK, hok]
  · intro x hx
    simp [utmupsValidateOK, hx]

/-- C6, witness: a passing coordinate returns the success value, the unknown
shape returns the type-mismatch error object. -/
theorem C6_witness :
    utmupsValidateOK Bool (Coord.tup 31 'N' (some 500000) (some 4649776) (some 'U'))
      false true = .inl true ∧
    utmupsValidateOK Bool Coord.other false true = .inr (.isnot acceptedShapes) :=
  ⟨(C6_validateOK_never_raises Bool
      (Coord.tup 31 'N' (some 500000) (some 4649776) (some 'U')) false true).1 rfl,
   (C6_validateOK_never_raises Bool Coord.other false true).2.2⟩

end Utmups
